import Mathlib

/-!
Verification of the backup/restore orchestration engine of
ImprovisedBackupDatabaseDocker against its specification.

The Python sources (`main.py`, `utils/client_backup.py`,
`utils/client_restore.py`) are shallowly embedded below.  Filesystem state
is passed in explicitly (a directory listing is an `Option (List String)`,
`none` meaning the directory does not exist; file modification times are an
explicit `mtime` function), external process execution is modelled by an
oracle deciding which command invocations succeed, and Python exceptions
are modelled with `Except`.

String operations are re-implemented over `List Char` so that every
definition evaluates inside the kernel.
-/

/-! ## String primitives (executable re-implementations) -/

/-- `strStartsWithL s p`: `s` starts with `p` (Python `str.startswith`). -/
def strStartsWithL : List Char → List Char → Bool
  | _, [] => true
  | [], _ :: _ => false
  | c :: cs, p :: ps => c = p && strStartsWithL cs ps

/-- Python `s.startswith(pat)`. -/
def strStartsWith (s pat : String) : Bool :=
  strStartsWithL s.toList pat.toList

/-- Python `s.endswith(pat)`. -/
def strEndsWith (s pat : String) : Bool :=
  strStartsWithL s.toList.reverse pat.toList.reverse

/-- `strContainsL s p`: some suffix of `s` starts with `p`. -/
def strContainsL (p : List Char) : List Char → Bool
  | [] => strStartsWithL [] p
  | c :: rest => strStartsWithL (c :: rest) p || strContainsL p rest

/-- Python `pat in s` (substring containment). -/
def strContains (s pat : String) : Bool :=
  strContainsL pat.toList s.toList

/-- ASCII whitespace, as stripped by Python `str.strip()`. -/
def isSpaceChar (c : Char) : Bool :=
  c = ' ' || c = Char.ofNat 9 || c = Char.ofNat 10 || c = Char.ofNat 13 ||
  c = Char.ofNat 11 || c = Char.ofNat 12

/-- Python `s.strip()`. -/
def strTrim (s : String) : String :=
  ⟨((s.toList.dropWhile isSpaceChar).reverse.dropWhile isSpaceChar).reverse⟩

/-- Split on a single-character separator (Python `s.split(sep)` /
`str.splitlines` for newline).  Always returns at least one piece. -/
def splitOnCharL (sep : Char) : List Char → List (List Char)
  | [] => [[]]
  | c :: rest =>
    let r := splitOnCharL sep rest
    if c = sep then [] :: r
    else
      match r with
      | h :: t => (c :: h) :: t
      | [] => [[c]]

/-- Split a string on a single-character separator. -/
def splitOnChar (sep : Char) (s : String) : List String :=
  (splitOnCharL sep s.toList).map (fun l => ⟨l⟩)

/-! ## Dedup Guard (`main.py`, `_has_today_backup`) -/

/-- Python truthiness of an `Optional[str]`: `None` and `""` are falsy. -/
def optTruthy : Option String → Bool
  | none => false
  | some s => s != ""

/-- The per-file match test of `_has_today_backup`'s loop body: with a
(truthy) database name, `f.startswith(f"{db_name}_{date_tag}")`; otherwise
the substring test `f"_{date_tag}_" in f`. -/
def todayNameMatch (db_name : Option String) (date_tag f : String) : Bool :=
  if optTruthy db_name then
    strStartsWith f (db_name.getD "" ++ "_" ++ date_tag)
  else
    strContains f ("_" ++ date_tag ++ "_")

/-- The `for f in os.listdir(backup_dir)` loop of `_has_today_backup`,
including the `continue` control flow. -/
def hasTodayBackupLoop (db_name : Option String) (date_tag : String)
    (extensions : List String) : List String → Bool
  | [] => false
  | f :: rest =>
    if !(todayNameMatch db_name date_tag f) then
      hasTodayBackupLoop db_name date_tag extensions rest
    else if extensions.any (fun ext => strEndsWith f ext) then
      true
    else
      hasTodayBackupLoop db_name date_tag extensions rest

/-- `_has_today_backup(backup_dir, db_name)` from `main.py`.  The directory
listing is passed explicitly: `none` models a path for which
`os.path.isdir` is false, `some files` models `os.listdir`.  `date_tag`
stands for `datetime.now().strftime("%Y%m%d")`, computed at entry. -/
def has_today_backup (dir : Option (List String)) (db_name : Option String)
    (date_tag : String) : Bool :=
  match dir with
  | none => false
  | some files => hasTodayBackupLoop db_name date_tag [".sql", ".backup"] files

/-! ## Path helpers (`os.path` as used by the sources) -/

/-- `os.path.join(a, b)` (posix, two arguments as used in the sources). -/
def path_join (a b : String) : String :=
  if strStartsWith b "/" then b
  else if a = "" || strEndsWith a "/" then a ++ b
  else a ++ "/" ++ b

/-- `os.path.basename(p)` (posix): the part after the last `/`. -/
def basename (p : String) : String :=
  (splitOnChar '/' p).getLastD p

/-- The extension part of `os.path.splitext(p)`: the suffix from the last
dot of the basename, unless every character of the basename before that
dot is itself a dot (leading dots start no extension). -/
def splitextExt (p : String) : String :=
  let base := basename p
  let parts := splitOnChar '.' base
  if parts.length ≥ 2 && !((parts.dropLast).all (fun s => s = "")) then
    "." ++ parts.getLastD ""
  else
    ""

/-! ## Restore Selector (`client_restore.py`) -/

/-- `POSTGRES_EXT_PRIORIDAD` — prefer the custom format. -/
def POSTGRES_EXT_PRIORIDAD : List String := [".backup", ".sql"]

/-- `MYSQL_EXT`. -/
def MYSQL_EXT : List String := [".sql"]

/-- Stable insertion into a list sorted by `key` descending: `x` goes in
front of the first element with a strictly smaller key. -/
def insertByKeyDesc (key : String → Nat) (x : String) : List String → List String
  | [] => [x]
  | y :: ys => if key y < key x then x :: y :: ys else y :: insertByKeyDesc key x ys

/-- Stable sort by `key` descending, modelling Python's stable
`files.sort(key=..., reverse=True)`. -/
def sortByKeyDesc (key : String → Nat) : List String → List String
  | [] => []
  | x :: xs => insertByKeyDesc key x (sortByKeyDesc key xs)

/-- `_list_backup_files(backup_dir, db_name, exts)`.  `dir` is the listing
of `backup_dir` (`none` when `os.path.isdir` is false); `mtime` gives each
path's modification time for the descending sort. -/
def list_backup_files (dir : Option (List String)) (backup_dir db_name : String)
    (exts : List String) (mtime : String → Nat) : List String :=
  match dir with
  | none => []
  | some entries =>
    let files := (entries.filter
        (fun f => strStartsWith f (db_name ++ "_") &&
          exts.any (fun ext => strEndsWith f ext))).map (path_join backup_dir)
    sortByKeyDesc mtime files

/-- The nested `for ext in preferred_order: for f in files:` loop of
`_choose_latest`; falls through to `files[0]` when no extension matches. -/
def chooseLatestLoop (files : List String) : List String → Option String
  | [] => files.head?
  | ext :: rest =>
    match files.find? (fun f => strEndsWith f ext) with
    | some f => some f
    | none => chooseLatestLoop files rest

/-- `_choose_latest(files, preferred_order)`. -/
def choose_latest (files : List String) (preferred_order : List String) : Option String :=
  if files.isEmpty then none
  else chooseLatestLoop files preferred_order

/-! ## Execution Environment Adapter (`client_backup.py`) -/

/-- An external command invocation: its argv list. -/
abbrev Cmd := List String

/-- `docker_exec(container, inner_cmd, env_vars)`: the argv list built by
`client_backup.docker_exec` before handing it to `run`. -/
def docker_exec_cmd (container : String) (env_vars : List (String × String))
    (inner : Cmd) : Cmd :=
  ["docker", "exec"] ++
    (env_vars.foldr (fun kv acc => "-e" :: (kv.1 ++ "=" ++ kv.2) :: acc) []) ++
    [container] ++ inner

/-- Run a straight-line command sequence against an oracle deciding which
invocations succeed.  Models consecutive `run(...)` calls with
`check=True` and no `try`: the first failing command raises
`CalledProcessError`, skipping the rest.  Returns the attempted trace and
the outcome (the error carries the failing command). -/
def runSeq (o : Cmd → Bool) : List Cmd → List Cmd × Except Cmd Unit
  | [] => ([], .ok ())
  | c :: rest =>
    if o c then
      let (t, r) := runSeq o rest
      (c :: t, r)
    else ([c], .error c)

/-! ## `shlex.quote` and the SQL statement builders -/

/-- The single-quote character, as a string. -/
def squote : String := String.singleton (Char.ofNat 39)

/-- Characters `shlex.quote` considers safe: ASCII letters, digits, and
underscore, at-sign, percent, plus, equals, colon, comma, dot, slash,
hyphen. -/
def shlexSafeChar (c : Char) : Bool :=
  c.isAlpha || c.isDigit || c = '_' || c = '@' || c = '%' || c = '+' ||
  c = '=' || c = ':' || c = ',' || c = '.' || c = '/' || c = '-'

/-- Replace every single-quote character by `rep` (the single-character
case of Python `str.replace` that `shlex.quote` performs). -/
def replaceQuoteL (rep : List Char) : List Char → List Char
  | [] => []
  | c :: rest =>
    if c = Char.ofNat 39 then rep ++ replaceQuoteL rep rest
    else c :: replaceQuoteL rep rest

/-- Python `shlex.quote(s)`: return `s` unchanged when every character is
safe, else wrap in single quotes, escaping embedded single quotes. -/
def shlex_quote (s : String) : String :=
  if s = "" then squote ++ squote
  else if s.toList.all shlexSafeChar then s
  else squote ++ (⟨replaceQuoteL (squote ++ "\"" ++ squote ++ "\"" ++ squote).toList s.toList⟩ : String) ++ squote

/-- The `stmt` built by `_restore_postgres` for the `.sql` path:
`f"DROP DATABASE IF EXISTS {shlex.quote(db_name)}; CREATE DATABASE {shlex.quote(db_name)};"`. -/
def pg_drop_create_stmt (db_name : String) : String :=
  "DROP DATABASE IF EXISTS " ++ shlex_quote db_name ++ "; CREATE DATABASE " ++
    shlex_quote db_name ++ ";"

/-- The `pre_sql` built by `_restore_mysql`: the raw database name is
interpolated between backticks with no escaping. -/
def mysql_pre_sql (db_name : String) : String :=
  "DROP DATABASE IF EXISTS `" ++ db_name ++ "`; CREATE DATABASE `" ++ db_name ++
    "` CHARACTER SET utf8mb4 COLLATE utf8mb4_unicode_ci;"

/-- `drop_create_cmd` of `_restore_mysql` (host flag inserted after the
user/password flags when `host` is truthy). -/
def mysql_drop_create_cmd (db_name user password port host : String) : Cmd :=
  ["mysql", "-u" ++ user, "-p" ++ password] ++
    (if host != "" then ["-h" ++ host] else []) ++
    ["-P" ++ port, "-e", mysql_pre_sql db_name]

/-- `_mysql_restore_shell(user, password, port, host, db, path)`: the shell
line loading `path` into `db` with a single-quoted password (also the
string built inline by the container branch of `_restore_mysql`, which
produces the identical text). -/
def mysql_restore_shell (user password port host db path : String) : String :=
  "mysql -u" ++ shlex_quote user ++ " -p" ++ squote ++ password ++ squote ++
    " -P" ++ shlex_quote port ++
    (if host != "" then " -h" ++ shlex_quote host else "") ++
    " " ++ shlex_quote db ++ " < " ++ shlex_quote path

/-! ## Backup Executor (`client_backup.py`, `backup_postgres_db`) -/

/-- The command sequence issued by `backup_postgres_db(db, user, password,
port, host, backup_dir, container)`; `ts` stands for the single
`datetime.now().strftime("%Y%m%d_%H%M%S")` computed at entry. -/
def backup_postgres_cmds (db user password port host backup_dir : String)
    (container : Option String) (ts : String) : List Cmd :=
  let r_plain := "/tmp/" ++ db ++ "_" ++ ts ++ ".sql"
  let r_custom := "/tmp/" ++ db ++ "_" ++ ts ++ ".backup"
  let l_plain := path_join backup_dir (db ++ "_" ++ ts ++ ".sql")
  let l_custom := path_join backup_dir (db ++ "_" ++ ts ++ ".backup")
  match container with
  | some c =>
    [docker_exec_cmd c [] ["pg_dump", "-U", user, "-d", db, "-F", "p", "-f", r_plain],
     ["docker", "cp", c ++ ":" ++ r_plain, l_plain],
     docker_exec_cmd c [] ["rm", r_plain],
     docker_exec_cmd c [] ["pg_dump", "-U", user, "-d", db, "-F", "c", "-f", r_custom],
     ["docker", "cp", c ++ ":" ++ r_custom, l_custom],
     docker_exec_cmd c [] ["rm", r_custom]]
  | none =>
    [["pg_dump", "-U", user, "-h", host, "-p", port, "-d", db, "-F", "p", "-f", l_plain],
     ["pg_dump", "-U", user, "-h", host, "-p", port, "-d", db, "-F", "c", "-f", l_custom]]

/-- `backup_postgres_db` run against an oracle: the body is straight-line
with `check=True` and no `try`, so the first failure aborts and raises. -/
def backup_postgres_run (o : Cmd → Bool) (db user password port host backup_dir : String)
    (container : Option String) (ts : String) : List Cmd × Except Cmd Unit :=
  runSeq o (backup_postgres_cmds db user password port host backup_dir container ts)

/-- The first positional argument after `flag`, if any (used to read the
`-f` output file of a `pg_dump` invocation). -/
def fileArgAfter (flag : String) : List String → Option String
  | [] => none
  | a :: rest => if a = flag then rest.head? else fileArgAfter flag rest

/-- The local files a single command writes: a `docker cp` whose source is
a `container:path` operand writes its destination on the host, and a
`pg_dump` run on the host writes its `-f` argument.  Commands running
inside a container (`docker exec ...`) write no local file. -/
def localWrites (cmd : Cmd) : List String :=
  match cmd with
  | "docker" :: "cp" :: src :: dst :: [] =>
    if strContains src ":" then [dst] else []
  | "docker" :: _ => []
  | "pg_dump" :: rest => (fileArgAfter "-f" rest).toList
  | _ => []

/-! ## Restore Executor (`client_restore.py`) -/

/-- `_restore_postgres(db_name, file_path, user, password, port, host,
container=container)` run against an oracle.  Returns the attempted
command trace and the outcome.  In container mode the staged copy is
removed in a `finally` block whose own failure is caught and ignored
(`except Exception: pass`), so the removal is attempted (it appears in
the trace) but its outcome never influences the result. -/
def restore_postgres_run (o : Cmd → Bool) (db_name file_path user password port host : String)
    (container : Option String) : List Cmd × Except Cmd Unit :=
  let env_vars := [("PGPASSWORD", password)]
  let ext := splitextExt file_path
  match container with
  | some cont =>
    let remote := "/tmp/restore_" ++ basename file_path
    let cp : Cmd := ["docker", "cp", file_path, cont ++ ":" ++ remote]
    if o cp then
      let body : List Cmd :=
        if ext = ".backup" then
          [docker_exec_cmd cont env_vars
            ["pg_restore", "-U", user, "-h", host, "-p", port, "-C", "-d", "postgres", remote]]
        else
          [docker_exec_cmd cont env_vars
            ["psql", "-U", user, "-h", host, "-p", port, "-d", "postgres", "-c",
              pg_drop_create_stmt db_name],
           docker_exec_cmd cont env_vars
            ["psql", "-U", user, "-h", host, "-p", port, "-d", db_name, "-f", remote]]
      let (t, r) := runSeq o body
      (cp :: t ++ [docker_exec_cmd cont [] ["rm", "-f", remote]], r)
    else ([cp], .error cp)
  | none =>
    if ext = ".backup" then
      runSeq o [["pg_restore", "-U", user, "-h", host, "-p", port, "-C", "-d", "postgres", file_path]]
    else
      runSeq o [["psql", "-U", user, "-h", host, "-p", port, "-d", "postgres", "-c",
                  pg_drop_create_stmt db_name],
                ["psql", "-U", user, "-h", host, "-p", port, "-d", db_name, "-f", file_path]]

/-- `_restore_mysql(db_name, file_path, user, password, port, host,
container=container)` run against an oracle, with the same conventions as
`restore_postgres_run`. -/
def restore_mysql_run (o : Cmd → Bool) (db_name file_path user password port host : String)
    (container : Option String) : List Cmd × Except Cmd Unit :=
  let drop_create := mysql_drop_create_cmd db_name user password port host
  match container with
  | some cont =>
    let dc := docker_exec_cmd cont [] drop_create
    if o dc then
      let remote := "/tmp/restore_" ++ basename file_path
      let cp : Cmd := ["docker", "cp", file_path, cont ++ ":" ++ remote]
      if o cp then
        let load := docker_exec_cmd cont []
          ["sh", "-c", mysql_restore_shell user password port host db_name remote]
        let (t, r) := runSeq o [load]
        (dc :: cp :: t ++ [docker_exec_cmd cont [] ["rm", "-f", remote]], r)
      else ([dc, cp], .error cp)
    else ([dc], .error dc)
  | none =>
    runSeq o [drop_create,
              ["bash", "-c", mysql_restore_shell user password port host db_name file_path]]

/-! ## Database Enumerator (`client_backup.py`) -/

/-- `POSTGRES_EXCLUDE`. -/
def POSTGRES_EXCLUDE : List String := ["postgres"]

/-- `MYSQL_EXCLUDE`. -/
def MYSQL_EXCLUDE : List String := ["information_schema", "performance_schema", "mysql", "sys"]

/-- Post-filter of `list_postgres_databases`:
`[d.strip() for d in stdout.splitlines() if d.strip() and d.strip() not in POSTGRES_EXCLUDE]`. -/
def pg_filter (out : String) : List String :=
  ((splitOnChar (Char.ofNat 10) out).filter
    (fun d => strTrim d != "" && !(POSTGRES_EXCLUDE.contains (strTrim d)))).map strTrim

/-- The per-line keep predicate of `list_mysql_databases`: the stripped
line is non-empty and not excluded, and the raw line does not start with
`Database` (the header strip). -/
def mysql_line_keep (d : String) : Bool :=
  strTrim d != "" && !(MYSQL_EXCLUDE.contains (strTrim d)) && !(strStartsWith d "Database")

/-- Post-filter of `list_mysql_databases`:
`[d.strip() for d in stdout.splitlines() if d.strip() and d.strip() not in MYSQL_EXCLUDE and not d.startswith("Database")]`. -/
def mysql_filter (out : String) : List String :=
  ((splitOnChar (Char.ofNat 10) out).filter mysql_line_keep).map strTrim

/-- An enumeration oracle: maps a command to its captured stdout, or to a
command failure (`CalledProcessError`) carrying the failing command. -/
abbrev EnumOracle := Cmd → Except Cmd String

/-- The command `list_postgres_databases` runs: the simplified in-container
`psql` invocation, or the host invocation with host/port flags. -/
def pg_enum_cmd (user port host : String) (container : Option String) : Cmd :=
  let query := "SELECT datname FROM pg_database WHERE datistemplate = false;"
  match container with
  | some cont =>
    docker_exec_cmd cont [] ["psql", "-U", user, "-d", "postgres", "-t", "-c", query]
  | none =>
    ["psql", "-U", user, "-h", host, "-p", port, "-d", "postgres", "-t", "-c", query]

/-- `list_postgres_databases(user, password, port, host, container=container)`:
one attempt, no retry; a failure propagates unchanged. -/
def list_postgres_databases_run (o : EnumOracle) (user port host : String)
    (container : Option String) : Except Cmd (List String) :=
  (o (pg_enum_cmd user port host container)).map pg_filter

/-- `base_parts` of `list_mysql_databases` (in container mode the
simplified variant without host/port flags). -/
def mysql_base_parts (user password port host : String) (container : Option String) : Cmd :=
  let query := "SHOW DATABASES;"
  match container with
  | some _ => ["mysql", "-u" ++ user, "-p" ++ password, "-e", query]
  | none =>
    ["mysql", "-u" ++ user, "-p" ++ password] ++
      (if host != "" then ["-h" ++ host] else []) ++
      ["-P" ++ port, "-e", query]

/-- The inner `attempt(parts)` of `list_mysql_databases`: in container mode
the parts are wrapped in a `docker exec`, otherwise run directly. -/
def mysql_attempt (o : EnumOracle) (container : Option String) (parts : Cmd) :
    Except Cmd String :=
  match container with
  | some cont => o (docker_exec_cmd cont [] parts)
  | none => o parts

/-- The retry command: every element that starts with `-h` and is not the
bare `-h` is removed (`[p for p in base_parts if not (p.startswith(-h) and p != -h)]`). -/
def stripHostFlags (parts : Cmd) : Cmd :=
  parts.filter (fun p => !(strStartsWith p "-h" && p != "-h"))

/-- `list_mysql_databases(user, password, port, host, container=container)`:
attempt `base_parts`; on `CalledProcessError` retry once with the host
flags stripped; if the retry also fails, the second error propagates. -/
def list_mysql_databases_run (o : EnumOracle) (user password port host : String)
    (container : Option String) : Except Cmd (List String) :=
  let base_parts := mysql_base_parts user password port host container
  match mysql_attempt o container base_parts with
  | .ok out => .ok (mysql_filter out)
  | .error _ =>
    match mysql_attempt o container (stripHostFlags base_parts) with
    | .ok out => .ok (mysql_filter out)
    | .error e => .error e

/-! ## `restore_database` (`client_restore.py`) -/

/-- ASCII lower-casing of one character (Python `str.lower` on the ASCII
engine tags used here). -/
def toLowerChar (c : Char) : Char :=
  if 'A' ≤ c ∧ c ≤ 'Z' then Char.ofNat (c.toNat + 32) else c

/-- Python `s.lower()` (ASCII range). -/
def strToLower (s : String) : String :=
  ⟨s.toList.map toLowerChar⟩

/-- The `db_conf` dictionary entry: each key may be absent (`none`).
Accesses via `.get` take a default; `db_conf[username]` and
`db_conf[password]` raise `KeyError` when absent. -/
structure DbConf where
  type? : Option String := none
  username? : Option String := none
  password? : Option String := none
  port? : Option String := none
  host? : Option String := none
  container? : Option String := none
  backup_dir? : Option String := none
  db? : Option String := none
deriving DecidableEq

/-- `safe_conf`: the configuration as logged, with the password value
replaced by three asterisks. -/
def redactConf (c : DbConf) : DbConf :=
  { c with password? := c.password?.map (fun _ => "***") }

/-- The log events `restore_database` can emit on its failure paths. -/
inductive LogEvent where
  | missingArgs
  | unsupported (t : String)
  | selectionFailed
  | cmdFailed (safeConf : DbConf)
deriving DecidableEq

/-- What a call to `restore_database` does: the external commands it
attempted, the failure-path log events, and its outcome.  The outcome is
`.error ()` when a Python exception escapes the function, `.ok none` for
the logged-and-return-`None` paths, and `.ok (some path)` when the restore
succeeded using `path`. -/
structure RestoreOutcome where
  trace : List Cmd
  logs : List LogEvent
  result : Except Unit (Option String)

/-- `db_type = db_conf.get('type', 'postgres').lower()`. -/
def rd_db_type (conf : DbConf) : String :=
  strToLower (conf.type?.getD "postgres")

/-- `port = db_conf.get('port', '5432' if db_type == 'postgres' else '3306')`. -/
def rd_port (conf : DbConf) : String :=
  conf.port?.getD (if rd_db_type conf = "postgres" then "5432" else "3306")

/-- `host = db_conf.get('host', '127.0.0.1')`. -/
def rd_host (conf : DbConf) : String :=
  conf.host?.getD "127.0.0.1"

/-- The selection step of `restore_database` when no explicit file path was
given: per engine, the latest candidate for `target_db`; an unsupported
engine tag is the logged-and-return-`None` error path. -/
def rd_select (conf : DbConf) (target_db : String) (dir : Option (List String))
    (mtime : String → Nat) : Except LogEvent (Option String) :=
  if rd_db_type conf = "postgres" then
    .ok (choose_latest
      (list_backup_files dir (conf.backup_dir?.getD "./") target_db
        POSTGRES_EXT_PRIORIDAD mtime) POSTGRES_EXT_PRIORIDAD)
  else if rd_db_type conf = "mysql" || rd_db_type conf = "mariadb" then
    .ok (choose_latest
      (list_backup_files dir (conf.backup_dir?.getD "./") target_db MYSQL_EXT mtime)
      MYSQL_EXT)
  else .error (.unsupported (rd_db_type conf))

/-- The executor dispatch of `restore_database`: `_restore_postgres` when
the engine tag is `postgres`, `_restore_mysql` for anything else. -/
def rd_exec (o : Cmd → Bool) (conf : DbConf) (target_db fp user password : String) :
    List Cmd × Except Cmd Unit :=
  if rd_db_type conf = "postgres" then
    restore_postgres_run o target_db fp user password (rd_port conf) (rd_host conf)
      conf.container?
  else
    restore_mysql_run o target_db fp user password (rd_port conf) (rd_host conf)
      conf.container?

/-- `restore_database(db_conf, db=db, file_path=file_path0)`.  `dir` is the
listing of the configured backup directory and `mtime` the modification
times (the filesystem state `_list_backup_files` reads); `o` decides which
external commands succeed.  The `username`/`password` subscript lookups
happen before the `try` block, so a configuration missing either key makes
a `KeyError` escape (`.error ()`); everything inside the `try` is caught. -/
def restore_database_run (o : Cmd → Bool) (conf : DbConf) (db file_path0 : Option String)
    (dir : Option (List String)) (mtime : String → Nat) : RestoreOutcome :=
  match conf.username?, conf.password? with
  | some user, some password =>
    let target0 := if optTruthy db then db else conf.db?
    if !(optTruthy target0) && !(optTruthy file_path0) then
      ⟨[], [.missingArgs], .ok none⟩
    else
      let target_db :=
        if !(optTruthy target0) then
          match file_path0 with
          | some fp => (splitOnChar '_' (basename fp)).headD ""
          | none => ""
        else target0.getD ""
      let fileSel : Except LogEvent (Option String) :=
        if !(optTruthy file_path0) then rd_select conf target_db dir mtime
        else .ok file_path0
      match fileSel with
      | .error ev => ⟨[], [ev], .ok none⟩
      | .ok none => ⟨[], [.selectionFailed], .ok none⟩
      | .ok (some fp) =>
        match rd_exec o conf target_db fp user password with
        | (t, .ok _) => ⟨t, [], .ok (some fp)⟩
        | (t, .error _) => ⟨t, [.cmdFailed (redactConf conf)], .ok none⟩
  | _, _ => ⟨[], [], .error ()⟩

/-! ## Injection measure for the restore SQL (claim C6) -/

/-- Count the semicolons of a MySQL statement string that stand outside
backtick-quoted identifiers: the number of statement separators the server
sees.  The two intended statements of `mysql_pre_sql` contribute two. -/
def countUnquotedSemis : List Char → Bool → Nat
  | [], _ => 0
  | c :: rest, inQ =>
    if c = Char.ofNat 96 then countUnquotedSemis rest (!inQ)
    else if c = ';' ∧ inQ = false then countUnquotedSemis rest inQ + 1
    else countUnquotedSemis rest inQ

/-- A cleanup command: `docker exec <container> rm ...` (the staged-file
removal issued by the container branches). -/
def isCleanupRm (c : Cmd) : Bool :=
  match c with
  | a :: b :: _ :: d :: _ => a = "docker" && b = "exec" && d = "rm"
  | _ => false

/-! ## Helper lemmas -/

theorem strToList_append (a b : String) : (a ++ b).toList = a.toList ++ b.toList := rfl

theorem hasTodayBackupLoop_iff (db : Option String) (tag : String) (exts : List String)
    (files : List String) :
    hasTodayBackupLoop db tag exts files = true ↔
      ∃ f ∈ files, todayNameMatch db tag f = true ∧
        exts.any (fun e => strEndsWith f e) = true := by
  induction files with
  | nil => simp [hasTodayBackupLoop]
  | cons f rest ih =>
    cases hm : todayNameMatch db tag f with
    | true =>
      cases he : exts.any (fun e => strEndsWith f e) with
      | true =>
        constructor
        · intro _
          exact ⟨f, by simp, hm, he⟩
        · intro _
          show hasTodayBackupLoop db tag exts (f :: rest) = true
          simp [hasTodayBackupLoop, hm, he]
      | false =>
        have hstep : hasTodayBackupLoop db tag exts (f :: rest) =
            hasTodayBackupLoop db tag exts rest := by
          simp [hasTodayBackupLoop, hm, he]
        rw [hstep, ih]
        constructor
        · rintro ⟨g, hg, h1, h2⟩
          exact ⟨g, by simp [hg], h1, h2⟩
        · rintro ⟨g, hg, h1, h2⟩
          rcases List.mem_cons.mp hg with rfl | hg2
          · rw [he] at h2
            exact absurd h2 (by simp)
          · exact ⟨g, hg2, h1, h2⟩
    | false =>
      have hstep : hasTodayBackupLoop db tag exts (f :: rest) =
          hasTodayBackupLoop db tag exts rest := by
        simp [hasTodayBackupLoop, hm]
      rw [hstep, ih]
      constructor
      · rintro ⟨g, hg, h1, h2⟩
        exact ⟨g, by simp [hg], h1, h2⟩
      · rintro ⟨g, hg, h1, h2⟩
        rcases List.mem_cons.mp hg with rfl | hg2
        · rw [hm] at h1
          exact absurd h1 (by simp)
        · exact ⟨g, hg2, h1, h2⟩

theorem runSeq_allOk (l : List Cmd) : runSeq (fun _ => true) l = (l, .ok ()) := by
  induction l with
  | nil => rfl
  | cons c rest ih => simp [runSeq, ih]

theorem runSeq_congr (o₁ o₂ : Cmd → Bool) (l : List Cmd)
    (h : ∀ c ∈ l, o₁ c = o₂ c) : runSeq o₁ l = runSeq o₂ l := by
  induction l with
  | nil => rfl
  | cons c rest ih =>
    simp only [runSeq]
    rw [h c (by simp), ih (fun d hd => h d (by simp [hd]))]

theorem todayNameMatch_eq (db : Option String) (tag f : String) :
    todayNameMatch db tag f = true ↔
      ((∃ d, db = some d ∧ d ≠ "" ∧ strStartsWith f (d ++ "_" ++ tag) = true) ∨
       ((db = none ∨ db = some "") ∧ strContains f ("_" ++ tag ++ "_") = true)) := by
  cases db with
  | none => simp [todayNameMatch, optTruthy]
  | some d =>
    by_cases hd : d = ""
    · subst hd
      simp [todayNameMatch, optTruthy]
    · simp [todayNameMatch, optTruthy, hd]

/-! ## Claim theorems -/

/-- Claim C1: `_has_today_backup(dir, database)` returns true iff: with a
database name given (a non-empty one, names being tested for Python
truthiness), some filename in the listing starts with
`<database>_<today tag>` and ends in `.sql` or `.backup`; with no database
name, some filename contains the substring `_<tag>_` and ends in a
recognized extension; and it returns false whenever the directory does not
exist (`dir = none`). -/
theorem has_today_backup_characterization (dir : Option (List String))
    (db : Option String) (tag : String) :
    (has_today_backup dir db tag = true ↔
      ∃ files, dir = some files ∧ ∃ f ∈ files,
        ((∃ d, db = some d ∧ d ≠ "" ∧ strStartsWith f (d ++ "_" ++ tag) = true) ∨
         ((db = none ∨ db = some "") ∧ strContains f ("_" ++ tag ++ "_") = true)) ∧
        (strEndsWith f ".sql" = true ∨ strEndsWith f ".backup" = true))
    ∧ has_today_backup none db tag = false := by
  constructor
  · cases dir with
    | none => simp [has_today_backup]
    | some files =>
      rw [show has_today_backup (some files) db tag =
            hasTodayBackupLoop db tag [".sql", ".backup"] files from rfl,
          hasTodayBackupLoop_iff]
      constructor
      · rintro ⟨f, hf, h1, h2⟩
        refine ⟨files, rfl, f, hf, (todayNameMatch_eq db tag f).mp h1, ?_⟩
        simpa using h2
      · rintro ⟨files2, heq, f, hf, h1, h2⟩
        obtain rfl : files2 = files := (Option.some.inj heq).symm
        exact ⟨f, hf, (todayNameMatch_eq db tag f).mpr h1, by simpa using h2⟩
  · rfl

theorem chooseLatestLoop_skip (files : List String) (e : String) (rest : List String)
    (h : files.find? (fun f => strEndsWith f e) = none) :
    chooseLatestLoop files (e :: rest) = chooseLatestLoop files rest := by
  simp [chooseLatestLoop, h]

theorem chooseLatestLoop_first_match (files pre : List String) (ext : String)
    (post : List String)
    (hnone : ∀ e ∈ pre, files.find? (fun f => strEndsWith f e) = none)
    (hsome : (files.find? (fun f => strEndsWith f ext)).isSome) :
    chooseLatestLoop files (pre ++ ext :: post) = files.find? (fun f => strEndsWith f ext) := by
  induction pre with
  | nil =>
    obtain ⟨f, hf⟩ := Option.isSome_iff_exists.mp hsome
    simp only [List.nil_append, chooseLatestLoop, hf]
  | cons e pre2 ih =>
    rw [List.cons_append, chooseLatestLoop_skip _ _ _ (hnone e (by simp))]
    exact ih (fun e2 he2 => hnone e2 (by simp [he2]))

theorem chooseLatestLoop_no_match (files preferred : List String)
    (hnone : ∀ e ∈ preferred, files.find? (fun f => strEndsWith f e) = none) :
    chooseLatestLoop files preferred = files.head? := by
  induction preferred with
  | nil => rfl
  | cons e rest ih =>
    rw [chooseLatestLoop_skip _ _ _ (hnone e (by simp))]
    exact ih (fun e2 he2 => hnone e2 (by simp [he2]))

theorem choose_latest_ne_nil (files preferred : List String) (hne : files ≠ []) :
    choose_latest files preferred = chooseLatestLoop files preferred := by
  have hie : files.isEmpty = false := by
    cases files with
    | nil => exact absurd rfl hne
    | cons a l => rfl
  simp [choose_latest, hie]

/-- Claim C2: for a non-empty candidate list sorted most-recently-modified
first, `_choose_latest` returns the first candidate matching the first
extension of the priority order that matches at all (the in-list-order,
hence most recent, match of that extension), regardless of the recency of
candidates with less-preferred extensions; when no candidate matches any
preferred extension it returns the most recently modified candidate (the
head, of maximal mtime); and on the PostgreSQL priority order the
candidate pair sorted either way yields the `.backup` file. -/
theorem choose_latest_spec (files preferred : List String) (mtime : String → Nat)
    (hne : files ≠ [])
    (hsorted : files.Pairwise (fun a b => mtime b ≤ mtime a)) :
    (∀ pre ext post, preferred = pre ++ ext :: post →
        (∀ e ∈ pre, ∀ f ∈ files, strEndsWith f e = false) →
        (∃ f ∈ files, strEndsWith f ext = true) →
        choose_latest files preferred = files.find? (fun f => strEndsWith f ext))
    ∧ ((∀ e ∈ preferred, ∀ f ∈ files, strEndsWith f e = false) →
        ∃ h, choose_latest files preferred = some h ∧ files.head? = some h ∧
          ∀ f ∈ files, mtime f ≤ mtime h)
    ∧ choose_latest ["a.backup", "a.sql"] POSTGRES_EXT_PRIORIDAD = some "a.backup"
    ∧ choose_latest ["a.sql", "a.backup"] POSTGRES_EXT_PRIORIDAD = some "a.backup" := by
  refine ⟨?_, ?_, by decide, by decide⟩
  · intro pre ext post hpref hprenone hmatch
    subst hpref
    rw [choose_latest_ne_nil files _ hne]
    refine chooseLatestLoop_first_match files pre ext post ?_ ?_
    · intro e he
      exact List.find?_eq_none.mpr (fun f hf => by simp [hprenone e he f hf])
    · exact List.find?_isSome.mpr hmatch
  · intro hnone
    obtain ⟨h, t, rfl⟩ := List.exists_cons_of_ne_nil hne
    refine ⟨h, ?_, rfl, ?_⟩
    · rw [choose_latest_ne_nil _ _ hne]
      rw [chooseLatestLoop_no_match _ _
        (fun e he => List.find?_eq_none.mpr (fun f hf => by simp [hnone e he f hf]))]
      rfl
    · intro f hf
      rcases List.mem_cons.mp hf with rfl | hf2
      · exact le_refl _
      · exact List.rel_of_pairwise_cons hsorted hf2

theorem strContainsL_of_mem (c : Char) (l : List Char) (h : c ∈ l) :
    strContainsL [c] l = true := by
  induction l with
  | nil => cases h
  | cons d rest ih =>
    simp only [strContainsL, Bool.or_eq_true]
    rcases List.mem_cons.mp h with rfl | h2
    · left
      simp [strStartsWithL]
    · right
      exact ih h2

theorem strContains_colon (a b : String) : strContains (a ++ ":" ++ b) ":" = true := by
  refine strContainsL_of_mem ':' _ ?_
  rw [strToList_append, strToList_append]
  simp

/-- Claim C3: a PostgreSQL backup invocation on one named database produces
exactly two local artifacts — a `.sql` plain dump and a `.backup` custom
archive — whose filenames share the single timestamp `ts` computed at the
start of `backup_postgres_db` (in both the container and the host branch).
The flag-value hypotheses rule out degenerate argument strings that would
themselves parse as the dump tool's output flag. -/
theorem backup_postgres_two_artifacts (db user password port host backup_dir ts : String)
    (container : Option String)
    (hu : user ≠ "-f") (hh : host ≠ "-f") (hp : port ≠ "-f") (hd : db ≠ "-f") :
    ((backup_postgres_cmds db user password port host backup_dir container ts).map
        localWrites).flatten
      = [path_join backup_dir (db ++ "_" ++ ts ++ ".sql"),
         path_join backup_dir (db ++ "_" ++ ts ++ ".backup")]
    ∧ ∃ stem, stem = db ++ "_" ++ ts ∧
        ((backup_postgres_cmds db user password port host backup_dir container ts).map
            localWrites).flatten
          = [path_join backup_dir (stem ++ ".sql"), path_join backup_dir (stem ++ ".backup")] := by
  cases container with
  | some c =>
    have key : ((backup_postgres_cmds db user password port host backup_dir (some c) ts).map
        localWrites).flatten
        = [path_join backup_dir (db ++ "_" ++ ts ++ ".sql"),
           path_join backup_dir (db ++ "_" ++ ts ++ ".backup")] := by
      simp [backup_postgres_cmds, docker_exec_cmd, localWrites, strContains_colon]
    exact ⟨key, db ++ "_" ++ ts, rfl, key⟩
  | none =>
    have key : ((backup_postgres_cmds db user password port host backup_dir none ts).map
        localWrites).flatten
        = [path_join backup_dir (db ++ "_" ++ ts ++ ".sql"),
           path_join backup_dir (db ++ "_" ++ ts ++ ".backup")] := by
      simp [backup_postgres_cmds, localWrites, fileArgAfter, hu, hh, hp, hd]
    exact ⟨key, db ++ "_" ++ ts, rfl, key⟩

/-- Claim C4: on the success path, the MySQL restore and the PostgreSQL
plain-text restore issue the DROP DATABASE IF EXISTS plus CREATE DATABASE
statement (`utf8mb4` in the MySQL `pre_sql`) strictly before the command
that loads the dump, in container and host mode alike, while the
PostgreSQL `.backup` path issues no drop/create statement command at all
and instead invokes `pg_restore` with the `-C` flag against the `postgres`
administrative database.  Each branch's full command trace is given. -/
theorem restore_drop_create_discipline (db file user password port host cont : String) :
    (splitextExt file ≠ ".backup" →
      (restore_postgres_run (fun _ => true) db file user password port host (some cont)).1 =
        [["docker", "cp", file, cont ++ ":" ++ ("/tmp/restore_" ++ basename file)],
         docker_exec_cmd cont [("PGPASSWORD", password)]
           ["psql", "-U", user, "-h", host, "-p", port, "-d", "postgres", "-c",
             pg_drop_create_stmt db],
         docker_exec_cmd cont [("PGPASSWORD", password)]
           ["psql", "-U", user, "-h", host, "-p", port, "-d", db, "-f",
             "/tmp/restore_" ++ basename file],
         docker_exec_cmd cont [] ["rm", "-f", "/tmp/restore_" ++ basename file]]
      ∧ (restore_postgres_run (fun _ => true) db file user password port host none).1 =
        [["psql", "-U", user, "-h", host, "-p", port, "-d", "postgres", "-c",
           pg_drop_create_stmt db],
         ["psql", "-U", user, "-h", host, "-p", port, "-d", db, "-f", file]])
    ∧ (splitextExt file = ".backup" →
      (restore_postgres_run (fun _ => true) db file user password port host (some cont)).1 =
        [["docker", "cp", file, cont ++ ":" ++ ("/tmp/restore_" ++ basename file)],
         docker_exec_cmd cont [("PGPASSWORD", password)]
           ["pg_restore", "-U", user, "-h", host, "-p", port, "-C", "-d", "postgres",
             "/tmp/restore_" ++ basename file],
         docker_exec_cmd cont [] ["rm", "-f", "/tmp/restore_" ++ basename file]]
      ∧ (restore_postgres_run (fun _ => true) db file user password port host none).1 =
        [["pg_restore", "-U", user, "-h", host, "-p", port, "-C", "-d", "postgres", file]])
    ∧ ((restore_mysql_run (fun _ => true) db file user password port host (some cont)).1 =
        [docker_exec_cmd cont [] (mysql_drop_create_cmd db user password port host),
         ["docker", "cp", file, cont ++ ":" ++ ("/tmp/restore_" ++ basename file)],
         docker_exec_cmd cont []
           ["sh", "-c", mysql_restore_shell user password port host db
             ("/tmp/restore_" ++ basename file)],
         docker_exec_cmd cont [] ["rm", "-f", "/tmp/restore_" ++ basename file]]
      ∧ (restore_mysql_run (fun _ => true) db file user password port host none).1 =
        [mysql_drop_create_cmd db user password port host,
         ["bash", "-c", mysql_restore_shell user password port host db file]]) := by
  refine ⟨fun hne => ⟨?_, ?_⟩, fun heq => ⟨?_, ?_⟩, ?_, ?_⟩
  · simp [restore_postgres_run, hne, runSeq_allOk]
  · simp [restore_postgres_run, hne, runSeq_allOk]
  · simp [restore_postgres_run, heq, runSeq_allOk]
  · simp [restore_postgres_run, heq, runSeq_allOk]
  · simp [restore_mysql_run, runSeq_allOk]
  · simp [restore_mysql_run, runSeq_allOk]

/-- Claim C5: on MySQL enumeration, a success of the first attempt yields
the filtered output with no retry; a command failure of the first attempt
leads to exactly one further attempt, on the command with every `-h<host>`
element removed, whose own failure propagates to the caller; and the
retried command indeed carries no host flag.  PostgreSQL enumeration
performs no retry: its single command's failure propagates unchanged. -/
theorem enumeration_retry_policy (o : EnumOracle) (user password port host : String)
    (container : Option String) :
    (∀ out, mysql_attempt o container (mysql_base_parts user password port host container)
        = .ok out →
      list_mysql_databases_run o user password port host container = .ok (mysql_filter out))
    ∧ (∀ e, mysql_attempt o container (mysql_base_parts user password port host container)
        = .error e →
      list_mysql_databases_run o user password port host container =
        (match mysql_attempt o container
            (stripHostFlags (mysql_base_parts user password port host container)) with
         | .ok out => .ok (mysql_filter out)
         | .error e2 => .error e2))
    ∧ (∀ p ∈ stripHostFlags (mysql_base_parts user password port host container),
        ¬(strStartsWith p "-h" = true ∧ p ≠ "-h"))
    ∧ (∀ e, o (pg_enum_cmd user port host container) = .error e →
        list_postgres_databases_run o user port host container = .error e) := by
  refine ⟨?_, ?_, ?_, ?_⟩
  · intro out hok
    simp [list_mysql_databases_run, hok]
  · intro e herr
    simp [list_mysql_databases_run, herr]
  · intro p hp
    have := (List.mem_filter.mp hp).2
    intro ⟨h1, h2⟩
    rw [h1] at this
    simp [h2] at this
  · intro e herr
    simp [list_postgres_databases_run, herr, Except.map]

/-- Claim C6 evidence: the MySQL restore builds its drop/create SQL by
interpolating the raw database name between backticks with no escaping.
For the benign name `mydb` the built string has exactly the two intended
top-level statement separators; for a name containing a backtick the
built string has six statement separators outside backtick quoting and
contains the injected `DROP DATABASE y` statement text, i.e. the
identifier is not safely quoted and extra statements are injected. -/
theorem mysql_pre_sql_injection :
    countUnquotedSemis (mysql_pre_sql "mydb").toList false = 2
    ∧ countUnquotedSemis
        (mysql_pre_sql "x`; DROP DATABASE y; SET @a=`").toList false = 6
    ∧ strContains (mysql_pre_sql "x`; DROP DATABASE y; SET @a=`")
        "; DROP DATABASE y;" = true := by
  refine ⟨by decide, by decide, by decide⟩

theorem pgpassword_ne_rm (p : String) : ("PGPASSWORD=" ++ p) ≠ "rm" := by
  intro hcontra
  have h2 := congrArg String.toList hcontra
  rw [strToList_append] at h2
  have h3 : "PGPASSWORD=".toList =
      ['P', 'G', 'P', 'A', 'S', 'S', 'W', 'O', 'R', 'D', '='] := rfl
  have h4 : "rm".toList = ['r', 'm'] := rfl
  rw [h3, h4] at h2
  simp at h2

/-- Claim C7 counterexample: in a container-mode PostgreSQL backup, after
the dump and the copy-out of the first artifact succeed, a failure of the
staged-file removal (`docker exec c rm /tmp/d_T.sql`) makes
`backup_postgres_db` raise: the cleanup failure propagates to the caller
instead of being swallowed, refuting the claim for backup operations. -/
theorem backup_cleanup_failure_propagates :
    (backup_postgres_run (fun c => !(isCleanupRm c)) "d" "u" "pw" "5432" "h" "b"
        (some "c") "T").2
      = Except.error (["docker", "exec", "c", "rm", "/tmp/d_T.sql"])
    ∧ (backup_postgres_run (fun c => !(isCleanupRm c)) "d" "u" "pw" "5432" "h" "b"
        (some "c") "T").1
      = [["docker", "exec", "c", "pg_dump", "-U", "u", "-d", "d", "-F", "p", "-f",
          "/tmp/d_T.sql"],
         ["docker", "cp", "c:/tmp/d_T.sql", "b/d_T.sql"],
         ["docker", "exec", "c", "rm", "/tmp/d_T.sql"]] := by
  exact ⟨rfl, rfl⟩

/-- Claim C7 (amended): in the restore executors, the outcome and trace are
independent of whether the staged-file removal commands succeed (their
failure is swallowed by the inner `try/except pass`), while in the
container-mode PostgreSQL backup a failing removal command — even with the
dump and the copy-out succeeding — surfaces as the executor's error. -/
theorem cleanup_failure_policy (db file user password port host cont bdir ts : String)
    (o₁ o₂ : Cmd → Bool)
    (h : ∀ c, ¬ isCleanupRm c = true → o₁ c = o₂ c) :
    restore_postgres_run o₁ db file user password port host (some cont) =
      restore_postgres_run o₂ db file user password port host (some cont)
    ∧ restore_mysql_run o₁ db file user password port host (some cont) =
      restore_mysql_run o₂ db file user password port host (some cont)
    ∧ ∀ (o : Cmd → Bool),
        o (docker_exec_cmd cont [] ["pg_dump", "-U", user, "-d", db, "-F", "p", "-f",
            "/tmp/" ++ db ++ "_" ++ ts ++ ".sql"]) = true →
        o (["docker", "cp", cont ++ ":" ++ ("/tmp/" ++ db ++ "_" ++ ts ++ ".sql"),
            path_join bdir (db ++ "_" ++ ts ++ ".sql")]) = true →
        o (docker_exec_cmd cont [] ["rm", "/tmp/" ++ db ++ "_" ++ ts ++ ".sql"]) = false →
        (backup_postgres_run o db user password port host bdir (some cont) ts).2 =
          .error (docker_exec_cmd cont [] ["rm", "/tmp/" ++ db ++ "_" ++ ts ++ ".sql"]) := by
  refine ⟨?_, ?_, ?_⟩
  · have hcp : o₁ ["docker", "cp", file, cont ++ ":" ++ ("/tmp/restore_" ++ basename file)] =
        o₂ ["docker", "cp", file, cont ++ ":" ++ ("/tmp/restore_" ++ basename file)] :=
      h _ (by simp [isCleanupRm])
    by_cases hext : splitextExt file = ".backup"
    · simp only [restore_postgres_run, hext, if_true, hcp]
      rw [runSeq_congr o₁ o₂ _ (fun c hc => h c ?_)]
      simp only [List.mem_singleton] at hc
      subst hc
      simp [docker_exec_cmd, isCleanupRm, pgpassword_ne_rm]
    · simp only [restore_postgres_run, hext, if_false, hcp]
      rw [runSeq_congr o₁ o₂ _ (fun c hc => h c ?_)]
      simp only [List.mem_cons, List.mem_singleton] at hc
      rcases hc with rfl | rfl | hfalse
      · simp [docker_exec_cmd, isCleanupRm, pgpassword_ne_rm]
      · simp [docker_exec_cmd, isCleanupRm, pgpassword_ne_rm]
      · cases hfalse
  · have hdc : o₁ (docker_exec_cmd cont [] (mysql_drop_create_cmd db user password port host)) =
        o₂ (docker_exec_cmd cont [] (mysql_drop_create_cmd db user password port host)) :=
      h _ (by simp [isCleanupRm, docker_exec_cmd, mysql_drop_create_cmd])
    have hcp : o₁ ["docker", "cp", file, cont ++ ":" ++ ("/tmp/restore_" ++ basename file)] =
        o₂ ["docker", "cp", file, cont ++ ":" ++ ("/tmp/restore_" ++ basename file)] :=
      h _ (by simp [isCleanupRm])
    simp only [restore_mysql_run, hdc, hcp]
    rw [runSeq_congr o₁ o₂ _ (fun c hc => h c ?_)]
    simp only [List.mem_singleton] at hc
    subst hc
    simp [docker_exec_cmd, isCleanupRm]
  · intro o h1 h2 h3
    simp [backup_postgres_run, backup_postgres_cmds, runSeq, h1, h2, h3]

/-- Claim C8 counterexample: `restore_database` reads
`db_conf[username]` (and `db_conf[password]`) before its `try` block, so
calling it with a configuration dictionary missing those keys raises
`KeyError` past its boundary instead of returning `None`. -/
theorem restore_database_keyerror :
    (restore_database_run (fun _ => true) {} none none none (fun _ => 0)).result
      = Except.error () := rfl

/-- Claim C8 (amended): for every input whose configuration carries the
documented `username` and `password` keys, `restore_database` never lets
an exception escape: it always returns (`.ok`), any command-failure log
carries the configuration with the password redacted to three asterisks,
and it returns a backup-file path only when no failure was logged. -/
theorem restore_database_boundary (o : Cmd → Bool) (conf : DbConf) (db fp : Option String)
    (dir : Option (List String)) (mtime : String → Nat) (u p : String)
    (hu : conf.username? = some u) (hp : conf.password? = some p) :
    (∃ r, (restore_database_run o conf db fp dir mtime).result = .ok r)
    ∧ (∀ sc, LogEvent.cmdFailed sc ∈ (restore_database_run o conf db fp dir mtime).logs →
        sc.password? = some "***")
    ∧ (∀ f, (restore_database_run o conf db fp dir mtime).result = .ok (some f) →
        (restore_database_run o conf db fp dir mtime).logs = []) := by
  have hred : (redactConf conf).password? = some "***" := by
    simp [redactConf, hp]
  have hshape :
      (restore_database_run o conf db fp dir mtime = ⟨[], [.missingArgs], .ok none⟩)
      ∨ (∃ ev, (∀ sc, ev ≠ LogEvent.cmdFailed sc) ∧
          restore_database_run o conf db fp dir mtime = ⟨[], [ev], .ok none⟩)
      ∨ (∃ t fp2, restore_database_run o conf db fp dir mtime = ⟨t, [], .ok (some fp2)⟩)
      ∨ (∃ t, restore_database_run o conf db fp dir mtime =
          ⟨t, [.cmdFailed (redactConf conf)], .ok none⟩) := by
    unfold restore_database_run
    rw [hu, hp]
    dsimp only
    generalize (if optTruthy db = true then db else conf.db?) = target0
    generalize (if (!optTruthy target0) = true then
        match fp with
        | some fpv => (splitOnChar '_' (basename fpv)).headD ""
        | none => ""
      else target0.getD "") = target_db
    generalize hsel : (if (!optTruthy fp) = true then rd_select conf target_db dir mtime
      else Except.ok fp) = fileSel
    split
    · exact Or.inl rfl
    · cases fileSel with
      | error ev =>
        refine Or.inr (Or.inl ⟨ev, ?_, rfl⟩)
        split at hsel
        · unfold rd_select at hsel
          split at hsel
          · cases hsel
          · split at hsel
            · cases hsel
            · cases hsel
              intro sc
              simp
        · cases hsel
      | ok ofp =>
        cases ofp with
        | none =>
          refine Or.inr (Or.inl ⟨.selectionFailed, ?_, rfl⟩)
          intro sc
          simp
        | some fp2 =>
          dsimp only
          rcases hex : rd_exec o conf target_db fp2 u p with ⟨t, r⟩
          cases r with
          | ok a => exact Or.inr (Or.inr (Or.inl ⟨t, fp2, rfl⟩))
          | error e => exact Or.inr (Or.inr (Or.inr ⟨t, rfl⟩))
  rcases hshape with heq | ⟨ev, hne, heq⟩ | ⟨t, fp2, heq⟩ | ⟨t, heq⟩ <;> rw [heq]
  · exact ⟨⟨none, rfl⟩, by simp, by simp⟩
  · refine ⟨⟨none, rfl⟩, ?_, by simp⟩
    intro sc hsc
    simp only [List.mem_singleton] at hsc
    exact absurd hsc.symm (hne sc)
  · exact ⟨⟨some fp2, rfl⟩, by simp, fun f _ => rfl⟩
  · refine ⟨⟨none, rfl⟩, ?_, by simp⟩
    intro sc hsc
    simp only [List.mem_singleton] at hsc
    obtain rfl : sc = redactConf conf := by
      cases hsc
      rfl
    exact hred

/-- Claim C9 counterexample: the MySQL header-stripping condition
`not d.startswith("Database")` removes every line beginning with
`Database`, not exactly the header line: the line `Databases` — a
legitimate database name, not the header and not in the exclusion set —
is also removed from the enumeration output. -/
theorem mysql_header_strip_not_exact :
    mysql_filter "Database\nDatabases\nmydb" = ["mydb"]
    ∧ mysql_line_keep "Databases" = false
    ∧ ("Databases" : String) ≠ "Database"
    ∧ "Databases" ∉ MYSQL_EXCLUDE := by
  refine ⟨by decide, by decide, by decide, by decide⟩

/-- Claim C9 (amended): the PostgreSQL enumeration result never contains
`postgres`; the MySQL enumeration result never contains
`information_schema`, `performance_schema`, `mysql` or `sys`; and the
header-stripping step removes every raw line that starts with `Database` —
which covers the header row, but is not limited to exactly it. -/
theorem enumeration_excludes (out : String) :
    ("postgres" ∉ pg_filter out)
    ∧ (∀ bad ∈ MYSQL_EXCLUDE, bad ∉ mysql_filter out)
    ∧ (∀ d : String, strStartsWith d "Database" = true → mysql_line_keep d = false) := by
  refine ⟨?_, ?_, ?_⟩
  · intro hmem
    simp only [pg_filter, List.mem_map, List.mem_filter] at hmem
    obtain ⟨d, ⟨hd, hkeep⟩, htrim⟩ := hmem
    rw [htrim] at hkeep
    simp [POSTGRES_EXCLUDE] at hkeep
  · intro bad hbad hmem
    simp only [mysql_filter, List.mem_map, List.mem_filter] at hmem
    obtain ⟨d, ⟨hd, hkeep⟩, htrim⟩ := hmem
    simp only [mysql_line_keep] at hkeep
    rw [htrim] at hkeep
    simp only [Bool.and_eq_true, bne_iff_ne, ne_eq, Bool.not_eq_true] at hkeep
    rcases hkeep with ⟨⟨-, hnot⟩, -⟩
    rw [List.contains_eq_any_beq] at hnot
    have : MYSQL_EXCLUDE.any (fun x => bad == x) = true := by
      refine List.any_eq_true.mpr ⟨bad, hbad, ?_⟩
      simp
    rw [this] at hnot
    cases hnot
  · intro d hstart
    simp [mysql_line_keep, hstart]

/-- Claim C10: `_list_backup_files` on a nonexistent directory returns the
empty list, and `restore_database` called without an explicit file path on
a target whose backup directory is missing or empty logs a
selection-failure event and returns `None` without attempting a single
external command. -/
theorem missing_dir_no_commands (o : Cmd → Bool) (conf : DbConf) (u p tdb : String)
    (mtime : String → Nat) (dir : Option (List String))
    (hu : conf.username? = some u) (hp : conf.password? = some p)
    (htdb : tdb ≠ "")
    (ht : rd_db_type conf = "postgres" ∨ rd_db_type conf = "mysql" ∨
      rd_db_type conf = "mariadb")
    (hdir : dir = none ∨ dir = some []) :
    (∀ backup_dir db_name exts mt,
      list_backup_files none backup_dir db_name exts mt = [])
    ∧ restore_database_run o conf (some tdb) none dir mtime =
        ⟨[], [.selectionFailed], .ok none⟩ := by
  constructor
  · intro backup_dir db_name exts mt
    rfl
  · have hsel : ∀ tdb2, rd_select conf tdb2 dir mtime = .ok none := by
      intro tdb2
      have hfiles : ∀ exts, list_backup_files dir (conf.backup_dir?.getD "./") tdb2
          exts mtime = [] := by
        intro exts
        rcases hdir with rfl | rfl
        · rfl
        · rfl
      rcases ht with h | h | h
      · simp [rd_select, h, hfiles, choose_latest]
      · simp [rd_select, h, hfiles, choose_latest]
      · simp [rd_select, h, hfiles, choose_latest]
    have htr : optTruthy (some tdb) = true := by simp [optTruthy, htdb]
    unfold restore_database_run
    rw [hu, hp]
    simp [htr, optTruthy, hsel, htdb]

/-! ## Witnesses -/

/-- Witness for C1 at a concrete directory, name and tag. -/
theorem has_today_backup_characterization_witness :
    has_today_backup (some ["db1_20250101_120000.sql"]) (some "db1") "20250101" = true :=
  (has_today_backup_characterization (some ["db1_20250101_120000.sql"])
      (some "db1") "20250101").1.mpr
    ⟨["db1_20250101_120000.sql"], rfl, "db1_20250101_120000.sql", by decide,
      Or.inl ⟨"db1", rfl, by decide, by decide⟩, Or.inl (by decide)⟩

/-- Witness for C2 at a concrete sorted candidate list. -/
theorem choose_latest_spec_witness :
    choose_latest ["b_1.sql"] [".sql"] =
      List.find? (fun f => strEndsWith f ".sql") ["b_1.sql"] :=
  (choose_latest_spec ["b_1.sql"] [".sql"] (fun _ => 0) (by decide) (by simp)).1
    [] ".sql" [] rfl (by simp) ⟨"b_1.sql", by decide, by decide⟩

/-- Witness for C3 at concrete arguments (host mode). -/
theorem backup_postgres_two_artifacts_witness :
    ((backup_postgres_cmds "d" "u" "pw" "5432" "h" "./b" none "T").map
        localWrites).flatten
      = ["./b/d_T.sql", "./b/d_T.backup"] :=
  (backup_postgres_two_artifacts "d" "u" "pw" "5432" "h" "./b" "T" none
    (by decide) (by decide) (by decide) (by decide)).1

/-- Witness for C4 at a `.backup` and a `.sql` file (host mode). -/
theorem restore_drop_create_discipline_witness :
    (restore_postgres_run (fun _ => true) "d" "a.backup" "u" "pw" "5432" "h" none).1 =
      [["pg_restore", "-U", "u", "-h", "h", "-p", "5432", "-C", "-d", "postgres",
        "a.backup"]]
    ∧ (restore_postgres_run (fun _ => true) "d" "a.sql" "u" "pw" "5432" "h" none).1 =
      [["psql", "-U", "u", "-h", "h", "-p", "5432", "-d", "postgres", "-c",
        pg_drop_create_stmt "d"],
       ["psql", "-U", "u", "-h", "h", "-p", "5432", "-d", "d", "-f", "a.sql"]] :=
  ⟨((restore_drop_create_discipline "d" "a.backup" "u" "pw" "5432" "h" "c").2.1
      (by decide)).2,
   ((restore_drop_create_discipline "d" "a.sql" "u" "pw" "5432" "h" "c").1
      (by decide)).2⟩

/-- Witness for C5 at an oracle failing every command: the MySQL
enumeration's final outcome is the retried command's error. -/
theorem enumeration_retry_policy_witness :
    list_mysql_databases_run (fun c => Except.error c) "u" "pw" "3306" "H" none =
      (match mysql_attempt (fun c => Except.error c) none
          (stripHostFlags (mysql_base_parts "u" "pw" "3306" "H" none)) with
       | .ok out => .ok (mysql_filter out)
       | .error e2 => .error e2) :=
  (enumeration_retry_policy (fun c => Except.error c) "u" "pw" "3306" "H" none).2.1
    (mysql_base_parts "u" "pw" "3306" "H" none) rfl

/-- Witness for C7: an all-succeeding oracle and one failing exactly the
cleanup removals give identical restore outcomes. -/
theorem cleanup_failure_policy_witness :
    restore_postgres_run (fun _ => true) "d" "f.sql" "u" "pw" "5432" "h" (some "c") =
      restore_postgres_run (fun c => !(isCleanupRm c)) "d" "f.sql" "u" "pw" "5432" "h"
        (some "c") :=
  (cleanup_failure_policy "d" "f.sql" "u" "pw" "5432" "h" "c" "b" "T"
    (fun _ => true) (fun c => !(isCleanupRm c))
    (fun c hc => by
      simp only [Bool.not_eq_true] at hc
      simp [hc])).1

/-- Witness for C8 at a concrete complete configuration. -/
theorem restore_database_boundary_witness :
    ∃ r, (restore_database_run (fun _ => true)
      { username? := some "u", password? := some "pw" }
      (some "d") (some "f.sql") none (fun _ => 0)).result = .ok r :=
  (restore_database_boundary (fun _ => true)
    { username? := some "u", password? := some "pw" }
    (some "d") (some "f.sql") none (fun _ => 0) "u" "pw" rfl rfl).1

/-- Witness for C9 at a concrete enumeration output and the header line. -/
theorem enumeration_excludes_witness :
    ("postgres" ∉ pg_filter " postgres \n mydb")
    ∧ mysql_line_keep "Database" = false :=
  ⟨(enumeration_excludes " postgres \n mydb").1,
   (enumeration_excludes " postgres \n mydb").2.2 "Database" (by decide)⟩

/-- Witness for C10 at a concrete configuration with a missing directory. -/
theorem missing_dir_no_commands_witness :
    restore_database_run (fun _ => true)
        { username? := some "u", password? := some "pw" }
        (some "d") none none (fun _ => 0)
      = ⟨[], [.selectionFailed], .ok none⟩ :=
  (missing_dir_no_commands (fun _ => true)
    { username? := some "u", password? := some "pw" }
    "u" "pw" "d" (fun _ => 0) none rfl rfl (by decide)
    (Or.inl (by decide)) (Or.inl rfl)).2
